import Mathlib

/-!
Verification of the Copilot SDK client library against its specification.

The repository ships per-language mirrors of one client design: process
lifecycle management, a bidirectional RPC layer, session multiplexing,
tool and permission dispatch, and streaming delta reconstruction.  The
client implementation files themselves are not part of the source
snapshot under verification; the snapshot carries the data-model
declarations (Go types.go and the C# mirror), the unit and end-to-end
tests, and the README.  Where a definition below embeds behaviour whose
implementation file is missing, its doc comment says so explicitly and
the definition follows the specification text, pinned by the concrete
expectations recorded in the tests that are present.
-/

namespace CopilotSDK

/-! ## Network address parsing (spec 4.1, 6; tests TestClient_URLParsing) -/

/-- Accumulating loop for parseNatDigits. -/
def parseNatDigitsGo : List Char → Nat → Option Nat
  | [], acc => some acc
  | c :: rest, acc =>
    if c.isDigit then parseNatDigitsGo rest (acc * 10 + (c.toNat - 48)) else none

/-- Parse a list of decimal digit characters into a natural number.
Returns none when the list is empty or holds a non-digit. -/
def parseNatDigits : List Char → Option Nat
  | [] => none
  | l => parseNatDigitsGo l 0

/-- Parse an optionally negated run of digits into an integer. -/
def parsePortInt (s : String) : Option Int :=
  match s.data with
  | '-' :: rest => (parseNatDigits rest).map (fun n => -(n : Int))
  | l => (parseNatDigits l).map (fun n => (n : Int))

/-- Drop an expected literal run of characters from the front of a
list, returning the remainder, or none when the front differs. -/
def dropLiteral : List Char → List Char → Option (List Char)
  | [], l => some l
  | _ :: _, [] => none
  | e :: es, c :: cs => if c = e then dropLiteral es cs else none

/-- Remove a leading http or https scheme marker when one is present. -/
def stripScheme (s : String) : String :=
  match dropLiteral "http://".data s.data with
  | some rest => String.mk rest
  | none =>
    match dropLiteral "https://".data s.data with
    | some rest => String.mk rest
    | none => s

/-- Split a character list at its last colon, returning the parts
before and after it. -/
def splitLastColon : List Char → Option (List Char × List Char)
  | [] => none
  | c :: rest =>
    match splitLastColon rest with
    | some (a, b) => some (c :: a, b)
    | none => if c = ':' then some ([], rest) else none

/-- Modelled from the spec: the address-form recognizer of the client
constructor, whose implementation file is not in the source snapshot.
Spec 4.1 accepts four forms: bare port, host:port, http prefixed and
https prefixed host:port; a bare port means host localhost.  Returns
the (host, port-text) pair, or none for a non-conforming address. -/
def splitCliUrl (url : String) : Option (String × String) :=
  let s := stripScheme url
  if s.length != 0 && s.data.all Char.isDigit then
    some ("localhost", s)
  else
    match splitLastColon s.data with
    | some (h, p) => if h.isEmpty then none else some (String.mk h, String.mk p)
    | none => none

/-- Modelled from the spec: CLIUrl parsing in the client constructor,
whose implementation file is not in the source snapshot.  Spec 4.1:
the port must satisfy 1 le port le 65535, violation fails with a
port-specific message; a non-conforming address fails with a
format-specific message.  The message stems match the regular
expressions asserted in TestClient_URLParsing. -/
def parseCliUrl (url : String) : Except String (String × Int) :=
  match splitCliUrl url with
  | none => .error ("Invalid CLIUrl format: " ++ url)
  | some (h, p) =>
    match parsePortInt p with
    | none => .error ("Invalid CLIUrl format: " ++ url)
    | some n =>
      if n < 1 ∨ 65535 < n then .error ("Invalid port in CLIUrl: " ++ url)
      else .ok (h, n)

/-! ## Client construction (ClientOptions from go/types.go; spec 4.1, 4.3, 7) -/

/-- Client options, embedding the fields of ClientOptions in go/types.go
that construction-time validation reads.  Go zero values are the
defaults: empty strings for unset string fields, false for UseStdio,
none for the optional booleans. -/
structure ClientOptionsM where
  cliPath : String := ""
  cwd : String := ""
  port : Int := 0
  useStdio : Bool := false
  cliUrl : String := ""
  githubToken : String := ""
  useLoggedInUser : Option Bool := none
deriving DecidableEq, Repr

/-- Client state produced by construction: the stored options, the
parsed host and port, and whether the server is externally addressed. -/
structure Client where
  options : ClientOptionsM
  actualHost : String
  actualPort : Int
  isExternalServer : Bool
deriving DecidableEq, Repr

/-- Modelled from the spec: the client constructor, whose implementation
file is not in the source snapshot.  Spec 4.1 and 7: network mode and
local-process mode are mutually exclusive and validation is synchronous
at construction; auth options are rejected with CLIUrl (tests
TestClient_URLParsing and TestClient_AuthOptions pin the messages).
With CLIUrl provided the stored options carry UseStdio false and the
client is marked external. -/
def NewClient (opts : ClientOptionsM) : Except String Client :=
  if opts.cliUrl = "" then
    .ok { options := opts, actualHost := "localhost",
          actualPort := opts.port, isExternalServer := false }
  else if opts.cliPath ≠ "" ∨ opts.useStdio = true then
    .error "CLIUrl is mutually exclusive with CLIPath and UseStdio"
  else if opts.githubToken ≠ "" ∨ opts.useLoggedInUser ≠ none then
    .error "GithubToken and UseLoggedInUser cannot be used with CLIUrl"
  else
    match parseCliUrl opts.cliUrl with
    | .error e => .error e
    | .ok (h, p) =>
      .ok { options := { opts with useStdio := false },
            actualHost := h, actualPort := p, isExternalServer := true }

/-- Observable outcome of constructing a network-mode client: host,
port and the external-server mark, or none when construction fails. -/
def clientNet (url : String) : Option (String × Int × Bool) :=
  match NewClient { cliUrl := url } with
  | .ok c => some (c.actualHost, c.actualPort, c.isExternalServer)
  | .error _ => none

/-- Claim C2: each of the four accepted network address forms is parsed
into the expected host and port pair, with host defaulting to localhost
when the address omits it, and the constructed client is marked as
using an externally addressed server. -/
theorem claim_C2_url_forms :
    clientNet "8080" = some ("localhost", 8080, true) ∧
    clientNet "127.0.0.1:9000" = some ("127.0.0.1", 9000, true) ∧
    clientNet "http://localhost:7000" = some ("localhost", 7000, true) ∧
    clientNet "https://example.com:443" = some ("example.com", 443, true) :=
  ⟨by decide, by decide, by decide, by decide⟩

/-- Claim C3: a network address whose port lies outside 1 le port le
65535 fails construction synchronously with the port-specific message
naming the offending address, and an address matching none of the four
accepted forms fails with the format-specific message. -/
theorem claim_C3_invalid_port_and_format (url h s : String) (n : Int) :
    (url ≠ "" → splitCliUrl url = some (h, s) → parsePortInt s = some n →
      (n < 1 ∨ 65535 < n) →
      NewClient { cliUrl := url } = .error ("Invalid port in CLIUrl: " ++ url)) ∧
    (url ≠ "" → splitCliUrl url = none →
      NewClient { cliUrl := url } = .error ("Invalid CLIUrl format: " ++ url)) := by
  constructor
  · intro hne hsplit hport hrange
    unfold NewClient
    rw [if_neg hne, if_neg (by simp), if_neg (by simp)]
    simp only [parseCliUrl, hsplit, hport]
    rw [if_pos hrange]
  · intro hne hsplit
    unfold NewClient
    rw [if_neg hne, if_neg (by simp), if_neg (by simp)]
    simp only [parseCliUrl, hsplit]

theorem claim_C3_witness :
    splitCliUrl "localhost:0" = some ("localhost", "0") ∧
    parsePortInt "0" = some 0 ∧
    NewClient { cliUrl := "localhost:0" } =
      .error ("Invalid port in CLIUrl: " ++ "localhost:0") ∧
    splitCliUrl "invalid-url" = none ∧
    NewClient { cliUrl := "invalid-url" } =
      .error ("Invalid CLIUrl format: " ++ "invalid-url") :=
  ⟨by decide, by decide,
   (claim_C3_invalid_port_and_format "localhost:0" "localhost" "0" 0).1
     (by decide) (by decide) (by decide) (Or.inl (by decide)),
   by decide,
   (claim_C3_invalid_port_and_format "invalid-url" "x" "x" 0).2
     (by decide) (by decide)⟩

/-- Claim C4: supplying a network address together with a local-process
path or with the local-process flag fails construction synchronously
with the mutually-exclusive-options error. -/
theorem claim_C4_mutually_exclusive (opts : ClientOptionsM)
    (hurl : opts.cliUrl ≠ "")
    (hconf : opts.cliPath ≠ "" ∨ opts.useStdio = true) :
    NewClient opts =
      .error "CLIUrl is mutually exclusive with CLIPath and UseStdio" := by
  unfold NewClient
  rw [if_neg hurl, if_pos hconf]

theorem claim_C4_witness :
    NewClient { cliUrl := "localhost:8080", useStdio := true } =
      .error "CLIUrl is mutually exclusive with CLIPath and UseStdio" ∧
    NewClient { cliUrl := "localhost:8080", cliPath := "/path/to/cli" } =
      .error "CLIUrl is mutually exclusive with CLIPath and UseStdio" :=
  ⟨claim_C4_mutually_exclusive _ (by decide) (Or.inr rfl),
   claim_C4_mutually_exclusive _ (by decide) (Or.inl (by decide))⟩

/-- Claim C10: supplying GithubToken or a non-nil UseLoggedInUser
together with CLIUrl (and no other conflicting local-process option)
fails construction with the dedicated error message rather than being
accepted with the credential injection silently skipped. -/
theorem claim_C10_auth_rejected_with_cliurl (opts : ClientOptionsM)
    (hurl : opts.cliUrl ≠ "") (hpath : opts.cliPath = "")
    (hstdio : opts.useStdio = false)
    (hauth : opts.githubToken ≠ "" ∨ opts.useLoggedInUser ≠ none) :
    NewClient opts =
      .error "GithubToken and UseLoggedInUser cannot be used with CLIUrl" := by
  have hc : ¬(opts.cliPath ≠ "" ∨ opts.useStdio = true) := by
    rintro (hbad | hbad)
    · exact hbad hpath
    · rw [hstdio] at hbad; exact Bool.false_ne_true hbad
  unfold NewClient
  rw [if_neg hurl, if_neg hc, if_pos hauth]

theorem claim_C10_witness :
    NewClient { cliUrl := "localhost:8080", githubToken := "gho_test_token" } =
      .error "GithubToken and UseLoggedInUser cannot be used with CLIUrl" ∧
    NewClient { cliUrl := "localhost:8080", useLoggedInUser := some false } =
      .error "GithubToken and UseLoggedInUser cannot be used with CLIUrl" :=
  ⟨claim_C10_auth_rejected_with_cliurl _ (by decide) rfl rfl (Or.inl (by decide)),
   claim_C10_auth_rejected_with_cliurl _ (by decide) rfl rfl (Or.inr (by decide))⟩

/-! ## Tool invocation dispatch (go/types.go ToolResult, ToolInvocation;
spec 4.5; test TestClient_HandleToolCallRequest) -/

/-- Binary payload returned by a tool, embedding ToolBinaryResult of
go/types.go. -/
structure ToolBinaryResultM where
  data : String := ""
  mimeType : String := ""
  type : String := ""
  description : String := ""
deriving DecidableEq, Repr

/-- Normalized tool invocation outcome, embedding ToolResult of
go/types.go.  The Go struct holds plain strings with empty meaning
absent; the telemetry map is embedded as an association list. -/
structure ToolResultM where
  textResultForLlm : String := ""
  binaryResultsForLlm : List ToolBinaryResultM := []
  resultType : String := "success"
  error : String := ""
  sessionLog : String := ""
  toolTelemetry : List (String × String) := []
deriving DecidableEq, Repr

/-- Tool call initiated by the engine, embedding ToolInvocation of
go/types.go; the arguments payload is kept opaque. -/
structure ToolInvocationM where
  sessionId : String := ""
  toolCallId : String := ""
  toolName : String := ""
  arguments : String := ""

/-- Caller-supplied tool handler: a returned error marks the execution
as a failure, matching the ToolHandler contract in go/types.go. -/
def ToolHandlerM : Type := ToolInvocationM → Except String ToolResultM

/-- Look up a tool registration by exact name, the per-session tool
table of spec 3 and 4.5. -/
def lookupTool (regs : List (String × ToolHandlerM)) (name : String) :
    Option ToolHandlerM :=
  match regs with
  | [] => none
  | (n, h) :: rest => if n = name then some h else lookupTool rest name

/-- The normalized failure result for an unregistered tool name, with
the exact error text asserted by TestClient_HandleToolCallRequest. -/
def notSupportedResult (name : String) : ToolResultM :=
  { textResultForLlm := "", resultType := "failure",
    error := "tool \x27" ++ name ++ "\x27 not supported" }

/-- Modelled from the spec: the inbound tool-call dispatch of the
client, whose implementation file is not in the source snapshot.
Spec 4.5: an absent registration replies with a failure ToolResult and
the not-supported error text; a handler error is converted into a
failure ToolResult carrying the message; a handler value is returned
as is. -/
def handleToolCall (regs : List (String × ToolHandlerM))
    (inv : ToolInvocationM) : ToolResultM :=
  match lookupTool regs inv.toolName with
  | none => notSupportedResult inv.toolName
  | some h =>
    match h inv with
    | .ok r => r
    | .error e =>
      { textResultForLlm := "", resultType := "failure", error := e }

/-- Reply sent back for an inbound tool call: a normal response object
carrying the normalized result, never a protocol fault. -/
structure ToolCallReply where
  result : ToolResultM
deriving DecidableEq, Repr

/-- Modelled from the spec: handleToolCallRequest wraps the dispatch
outcome into a reply object, total on every inbound call. -/
def handleToolCallRequest (regs : List (String × ToolHandlerM))
    (inv : ToolInvocationM) : ToolCallReply :=
  { result := handleToolCall regs inv }

/-- Claim C1: an inbound tool call whose name has no registration for
the session is answered with a ToolResult of resultType failure and
error text exactly tool quote name quote not supported, returned as a
normal reply rather than a protocol fault. -/
theorem claim_C1_unregistered_tool (regs : List (String × ToolHandlerM))
    (inv : ToolInvocationM) (habsent : lookupTool regs inv.toolName = none) :
    (handleToolCallRequest regs inv).result.resultType = "failure" ∧
    (handleToolCallRequest regs inv).result.error =
      "tool \x27" ++ inv.toolName ++ "\x27 not supported" := by
  unfold handleToolCallRequest handleToolCall
  rw [habsent]
  exact ⟨rfl, rfl⟩

theorem claim_C1_witness :
    (handleToolCallRequest []
      { sessionId := "s1", toolCallId := "123",
        toolName := "missing_tool" }).result.resultType = "failure" ∧
    (handleToolCallRequest []
      { sessionId := "s1", toolCallId := "123",
        toolName := "missing_tool" }).result.error =
      "tool \x27missing_tool\x27 not supported" := by
  have h := claim_C1_unregistered_tool []
    { sessionId := "s1", toolCallId := "123", toolName := "missing_tool" } rfl
  exact ⟨h.1, h.2.trans (by decide)⟩

/-! ## Streaming delta reconstruction (spec 3 DeltaBuffer, 4.6; test
should receive streaming delta events when streaming is enabled) -/

/-- Appending the empty string on the left is the identity. -/
theorem strEmptyAppend (a : String) : "" ++ a = a :=
  String.ext (by simp [String.data_append])

/-- Appending the empty string on the right is the identity. -/
theorem strAppendEmpty (a : String) : a ++ "" = a :=
  String.ext (by simp [String.data_append])

/-- String concatenation is associative. -/
theorem strAppendAssoc (a b c : String) : a ++ b ++ c = a ++ (b ++ c) :=
  String.ext (by simp [String.data_append, List.append_assoc])

/-- Channel of a partial-content event: assistant message text or
reasoning text, the two delta streams of spec 4.6. -/
inductive DeltaChannel
  | message
  | reasoning
deriving DecidableEq, Repr

/-- Session-scoped events relevant to streaming reconstruction: a
delta fragment for a message id, the final full-content event for a
message id, and any other session event. -/
inductive StreamEvent
  | delta (ch : DeltaChannel) (messageId : String) (deltaContent : String)
  | final (ch : DeltaChannel) (messageId : String) (content : String)
  | other (tag : String)
deriving DecidableEq, Repr

/-- Per channel and message id accumulator table, the DeltaBuffer of
spec 3. -/
def DeltaBufs : Type := List ((DeltaChannel × String) × String)

/-- Look up the accumulated text for a key. -/
def lookupBuf (bufs : DeltaBufs) (k : DeltaChannel × String) : Option String :=
  match bufs with
  | [] => none
  | (k2, v) :: rest => if k2 = k then some v else lookupBuf rest k

/-- Accumulated text for a key, empty when the key is absent. -/
def getBuf (bufs : DeltaBufs) (k : DeltaChannel × String) : String :=
  (lookupBuf bufs k).getD ""

/-- Append a fragment to the accumulator of a key, creating it when
absent. -/
def updateBuf : DeltaBufs → DeltaChannel × String → String → DeltaBufs
  | [], k, d => [(k, d)]
  | (k2, v) :: rest, k, d =>
    if k2 = k then (k2, v ++ d) :: rest else (k2, v) :: updateBuf rest k d

/-- Discard the accumulator of a key. -/
def removeBuf : DeltaBufs → DeltaChannel × String → DeltaBufs
  | [], _ => []
  | (k2, v) :: rest, k =>
    if k2 = k then removeBuf rest k else (k2, v) :: removeBuf rest k

/-- Modelled from the spec: one step of the StreamingAggregator, whose
implementation file is not in the source snapshot.  Spec 4.6 and the
DeltaBuffer invariant of spec 3: a delta fragment is appended to the
accumulator of its id, and the buffer for an id is discarded once the
final event for that id is observed. -/
def aggStep (bufs : DeltaBufs) : StreamEvent → DeltaBufs
  | .delta ch id d => updateBuf bufs (ch, id) d
  | .final ch id _ => removeBuf bufs (ch, id)
  | .other _ => bufs

/-- Run the aggregator over a list of events in delivery order. -/
def aggRun (bufs : DeltaBufs) (evs : List StreamEvent) : DeltaBufs :=
  evs.foldl aggStep bufs

/-- Fragments delivered for a channel and message id, in delivery
order. -/
def deltasFor (ch : DeltaChannel) (id : String) : List StreamEvent → List String
  | [] => []
  | .delta ch2 id2 d :: rest =>
    if ch2 = ch ∧ id2 = id then d :: deltasFor ch id rest else deltasFor ch id rest
  | .final _ _ _ :: rest => deltasFor ch id rest
  | .other _ :: rest => deltasFor ch id rest

/-- Whether a final event for a channel and message id occurs in a
list of events. -/
def hasFinalFor (ch : DeltaChannel) (id : String) : List StreamEvent → Bool
  | [] => false
  | .final ch2 id2 _ :: rest => (ch2 = ch && id2 = id) || hasFinalFor ch id rest
  | .delta _ _ _ :: rest => hasFinalFor ch id rest
  | .other _ :: rest => hasFinalFor ch id rest

/-- Concatenation of a list of fragments in order. -/
def concatFrags : List String → String
  | [] => ""
  | s :: rest => s ++ concatFrags rest

theorem getBuf_updateBuf_self (bufs : DeltaBufs) (k : DeltaChannel × String)
    (d : String) : getBuf (updateBuf bufs k d) k = getBuf bufs k ++ d := by
  induction bufs with
  | nil => simp [updateBuf, getBuf, lookupBuf, strEmptyAppend]
  | cons hd tl ih =>
    obtain ⟨k2, v⟩ := hd
    simp only [getBuf] at ih ⊢
    by_cases h : k2 = k
    · simp [updateBuf, lookupBuf, h]
    · simp only [updateBuf, if_neg h, lookupBuf]
      exact ih

theorem getBuf_updateBuf_ne (bufs : DeltaBufs) (k k2 : DeltaChannel × String)
    (d : String) (h : k2 ≠ k) : getBuf (updateBuf bufs k2 d) k = getBuf bufs k := by
  induction bufs with
  | nil => simp [updateBuf, getBuf, lookupBuf, h]
  | cons hd tl ih =>
    obtain ⟨k3, v⟩ := hd
    simp only [getBuf] at ih ⊢
    by_cases h3 : k3 = k2
    · subst h3
      simp only [updateBuf, if_pos rfl, lookupBuf]
      rw [if_neg h, if_neg h]
    · simp only [updateBuf, if_neg h3, lookupBuf]
      by_cases h4 : k3 = k
      · rw [if_pos h4, if_pos h4]
      · rw [if_neg h4, if_neg h4]
        exact ih

theorem lookupBuf_removeBuf_self (bufs : DeltaBufs) (k : DeltaChannel × String) :
    lookupBuf (removeBuf bufs k) k = none := by
  induction bufs with
  | nil => simp [removeBuf, lookupBuf]
  | cons hd tl ih =>
    obtain ⟨k2, v⟩ := hd
    by_cases h : k2 = k
    · simpa [removeBuf, h] using ih
    · simp only [removeBuf, if_neg h, lookupBuf]
      exact ih

theorem getBuf_removeBuf_ne (bufs : DeltaBufs) (k k2 : DeltaChannel × String)
    (h : k2 ≠ k) : getBuf (removeBuf bufs k2) k = getBuf bufs k := by
  induction bufs with
  | nil => simp [removeBuf]
  | cons hd tl ih =>
    obtain ⟨k3, v⟩ := hd
    simp only [getBuf] at ih ⊢
    by_cases h3 : k3 = k2
    · subst h3
      simp only [removeBuf, if_pos rfl, lookupBuf]
      rw [if_neg h]
      exact ih
    · simp only [removeBuf, if_neg h3, lookupBuf]
      by_cases h4 : k3 = k
      · rw [if_pos h4, if_pos h4]
      · rw [if_neg h4, if_neg h4]
        exact ih

theorem aggRun_getBuf_no_final (evs : List StreamEvent) :
    ∀ (bufs : DeltaBufs) (ch : DeltaChannel) (id : String),
    hasFinalFor ch id evs = false →
    getBuf (aggRun bufs evs) (ch, id) =
      getBuf bufs (ch, id) ++ concatFrags (deltasFor ch id evs) := by
  induction evs with
  | nil =>
    intro bufs ch id _
    simp [aggRun, deltasFor, concatFrags, strAppendEmpty]
  | cons e rest ih =>
    intro bufs ch id hnf
    cases e with
    | delta ch2 id2 d =>
      have hnf2 : hasFinalFor ch id rest = false := hnf
      by_cases hk : ch2 = ch ∧ id2 = id
      · obtain ⟨hc, hi⟩ := hk
        subst hc; subst hi
        show getBuf (aggRun (updateBuf bufs (ch2, id2) d) rest) (ch2, id2) = _
        rw [ih _ _ _ hnf2, getBuf_updateBuf_self]
        simp only [deltasFor, if_pos (And.intro rfl rfl), concatFrags]
        rw [strAppendAssoc]
      · have hne : (ch2, id2) ≠ (ch, id) := by
          intro hEq
          exact hk (by injection hEq with h1 h2; exact ⟨h1, h2⟩)
        show getBuf (aggRun (updateBuf bufs (ch2, id2) d) rest) (ch, id) = _
        rw [ih _ _ _ hnf2, getBuf_updateBuf_ne _ _ _ _ hne]
        simp only [deltasFor, if_neg hk]
    | final ch2 id2 c =>
      have hsplit : ((ch2 = ch && id2 = id) || hasFinalFor ch id rest) = false := hnf
      rw [Bool.or_eq_false_iff] at hsplit
      obtain ⟨hne0, hnf2⟩ := hsplit
      have hne : (ch2, id2) ≠ (ch, id) := by
        intro hEq
        injection hEq with h1 h2
        rw [h1, h2] at hne0
        simp at hne0
      show getBuf (aggRun (removeBuf bufs (ch2, id2)) rest) (ch, id) = _
      rw [ih _ _ _ hnf2, getBuf_removeBuf_ne _ _ _ hne]
      simp only [deltasFor]
    | other t =>
      have hnf2 : hasFinalFor ch id rest = false := hnf
      show getBuf (aggRun bufs rest) (ch, id) = _
      rw [ih _ _ _ hnf2]
      simp only [deltasFor]

/-- Claim C5: with streaming enabled, the concatenation of all delta
fragments for a message id in delivery order equals exactly the
content carried by the subsequent final event for that id, and the per
id delta buffer is discarded once the final event for that id is
observed.  The equality between the accumulated fragments and the
final content is the wire guarantee of spec 4.6, taken as the
hypothesis relating the final content to the delivered fragments. -/
theorem claim_C5_streaming_concat (evs : List StreamEvent) (ch : DeltaChannel)
    (id c : String) (hnf : hasFinalFor ch id evs = false)
    (hwire : c = concatFrags (deltasFor ch id evs)) :
    getBuf (aggRun [] evs) (ch, id) = c ∧
    lookupBuf (aggRun [] (evs ++ [StreamEvent.final ch id c])) (ch, id) = none := by
  constructor
  · rw [hwire]
    have h := aggRun_getBuf_no_final evs [] ch id hnf
    rw [h]
    show "" ++ _ = _
    rw [strEmptyAppend]
  · unfold aggRun
    rw [List.foldl_append]
    show lookupBuf (removeBuf (aggRun [] evs) (ch, id)) (ch, id) = none
    exact lookupBuf_removeBuf_self _ _

theorem claim_C5_witness :
    getBuf
      (aggRun []
        [StreamEvent.delta .message "m1" "2 + 2 ",
         StreamEvent.other "session.start",
         StreamEvent.delta .reasoning "m1" "ignore me",
         StreamEvent.delta .message "m1" "is 4"])
      (DeltaChannel.message, "m1") = "2 + 2 is 4" ∧
    lookupBuf
      (aggRun []
        ([StreamEvent.delta .message "m1" "2 + 2 ",
          StreamEvent.other "session.start",
          StreamEvent.delta .reasoning "m1" "ignore me",
          StreamEvent.delta .message "m1" "is 4"] ++
         [StreamEvent.final .message "m1" "2 + 2 is 4"]))
      (DeltaChannel.message, "m1") = none :=
  claim_C5_streaming_concat _ .message "m1" "2 + 2 is 4" (by decide) (by decide)

/-! ## Session registry: create, resume, abort, send (spec 4.4; tests
should resume a session, should abort a session) -/

/-- Processing status of one session: idle, or an in-flight turn. -/
inductive SessStatus
  | idle
  | processing
deriving DecidableEq, Repr

/-- Engine-side record of one session: its status and its ordered
event log, the Session mirror of spec 3.  Events are embedded by their
type tags, which is all the resumption and abort tests observe. -/
structure SessionRec where
  status : SessStatus := .idle
  events : List String := []
deriving DecidableEq, Repr

/-- Engine-side session registry plus the counter used to mint session
ids. -/
structure EngineState where
  sessions : List (String × SessionRec) := []
  nextId : Nat := 0
deriving DecidableEq, Repr

/-- First association for an id in the registry. -/
def lookupRec : List (String × SessionRec) → String → Option SessionRec
  | [], _ => none
  | (k, r) :: rest, id => if k = id then some r else lookupRec rest id

/-- Rewrite the first association for an id in the registry. -/
def updateRec : List (String × SessionRec) → String → (SessionRec → SessionRec) →
    List (String × SessionRec)
  | [], _, _ => []
  | (k, r) :: rest, id, f =>
    if k = id then (k, f r) :: rest else (k, r) :: updateRec rest id f

/-- Session record held by the engine for an id, if any. -/
def lookupSession (st : EngineState) (id : String) : Option SessionRec :=
  lookupRec st.sessions id

/-- Session handle returned to the caller. -/
structure SessionM where
  sessionId : String
deriving DecidableEq, Repr

/-- Failure taxonomy surfaced to the caller (spec 7). -/
inductive SdkError
  | sessionNotFound (id : String)
  | connectionLost
deriving DecidableEq, Repr

/-- Fresh server-assigned session id. -/
def freshSessionId (n : Nat) : String :=
  "session-" ++ Nat.repr n

/-- Modelled from the spec: session creation, whose implementation file
is not in the source snapshot.  Spec 4.4: the engine assigns a fresh
sessionId, records the session, and emits session.start. -/
def createSessionM (st : EngineState) : EngineState × SessionM :=
  let sid := freshSessionId st.nextId
  ({ sessions := st.sessions ++ [(sid, { status := .idle, events := ["session.start"] })],
     nextId := st.nextId + 1 },
   { sessionId := sid })

/-- Modelled from the spec: session resumption, whose implementation
file is not in the source snapshot.  Spec 4.4: resume with an existing
sessionId returns a session under the same id; an id the engine has no
record of fails with Session-Not-Found.  Resumption reads only the
engine-side registry, so it behaves the same from the creating client
or from a fresh client instance. -/
def resumeSessionM (st : EngineState) (id : String) : Except SdkError SessionM :=
  match lookupSession st id with
  | some _ => .ok { sessionId := id }
  | none => .error (.sessionNotFound id)

/-- Record updater applied when the caller aborts: the in-flight turn
is cancelled, the record itself is kept. -/
def setIdle (r : SessionRec) : SessionRec :=
  { r with status := .idle }

/-- Record updater applied when a send is accepted: the turn starts
processing and user.message joins the log. -/
def markSent (r : SessionRec) : SessionRec :=
  { status := .processing, events := r.events ++ ["user.message"] }

/-- Record updater applied when a turn completes normally:
assistant.message and session.idle join the log. -/
def markCompleted (r : SessionRec) : SessionRec :=
  { status := .idle, events := r.events ++ ["assistant.message", "session.idle"] }

/-- Registry after a send is accepted on a session. -/
def afterSend (st : EngineState) (id : String) : EngineState :=
  { st with sessions := updateRec st.sessions id markSent }

/-- Modelled from the spec: sending a prompt on a session, whose
implementation file is not in the source snapshot.  Spec 4.4: send
enqueues the prompt (payload kept opaque here), the turn starts
processing, and user.message joins the session log; an unknown id is
Session-Not-Found. -/
def sendMsg (st : EngineState) (id : String) : Except SdkError EngineState :=
  match lookupSession st id with
  | none => .error (.sessionNotFound id)
  | some _ => .ok (afterSend st id)

/-- Modelled from the spec: abort, whose implementation file is not in
the source snapshot.  Spec 4.4: abort cancels the in-flight turn of a
session without destroying the session; the registry entry is kept and
the status returns to idle. -/
def abortSession (st : EngineState) (id : String) : EngineState :=
  { st with sessions := updateRec st.sessions id setIdle }

/-- Modelled from the spec: normal completion of a turn.  Spec 4.4 and
6: the engine answers with assistant.message and session.idle signals
the finished turn. -/
def completeTurn (st : EngineState) (id : String) : EngineState :=
  { st with sessions := updateRec st.sessions id markCompleted }

/-- Status of a session as seen through the registry. -/
def statusOf (st : EngineState) (id : String) : Option SessStatus :=
  (lookupSession st id).map (fun r => r.status)

/-- Event log of a session as seen through the registry. -/
def eventsOf (st : EngineState) (id : String) : Option (List String) :=
  (lookupSession st id).map (fun r => r.events)

theorem lookupRec_updateRec_self (l : List (String × SessionRec)) (id : String)
    (f : SessionRec → SessionRec) :
    lookupRec (updateRec l id f) id = (lookupRec l id).map f := by
  induction l with
  | nil => simp [updateRec, lookupRec]
  | cons hd tl ih =>
    obtain ⟨k, r⟩ := hd
    by_cases h : k = id
    · simp [updateRec, lookupRec, h]
    · simp only [updateRec, if_neg h, lookupRec]
      exact ih

theorem lookupSession_update (st : EngineState) (id : String)
    (f : SessionRec → SessionRec) :
    lookupSession { st with sessions := updateRec st.sessions id f } id =
      (lookupSession st id).map f :=
  lookupRec_updateRec_self _ _ _

theorem lookupRec_append_isSome (l m : List (String × SessionRec)) (id : String)
    (hm : (lookupRec m id).isSome = true) :
    (lookupRec (l ++ m) id).isSome = true := by
  induction l with
  | nil => simpa using hm
  | cons hd tl ih =>
    obtain ⟨k, r⟩ := hd
    by_cases h : k = id <;> simp [lookupRec, h, ih]

/-- Claim C8: resuming a previously issued sessionId, through the
engine registry that any client instance reads, returns a session
whose sessionId equals the one passed in, unchanged; a sessionId the
engine has no record of fails with the distinct Session-Not-Found
error; a freshly created session can always be resumed under its own
id. -/
theorem claim_C8_resume_identity (st : EngineState) (id : String) :
    ((lookupSession st id).isSome = true →
      resumeSessionM st id = .ok { sessionId := id }) ∧
    (lookupSession st id = none →
      resumeSessionM st id = .error (.sessionNotFound id)) ∧
    (resumeSessionM (createSessionM st).1 (createSessionM st).2.sessionId =
      .ok { sessionId := (createSessionM st).2.sessionId }) := by
  refine ⟨?_, ?_, ?_⟩
  · intro hs
    obtain ⟨r, hr⟩ := Option.isSome_iff_exists.mp hs
    unfold resumeSessionM
    rw [hr]
  · intro hn
    unfold resumeSessionM
    rw [hn]
  · have hs : (lookupSession (createSessionM st).1
        (createSessionM st).2.sessionId).isSome = true := by
      unfold lookupSession createSessionM
      exact lookupRec_append_isSome _ _ _ (by simp [lookupRec])
    obtain ⟨r, hr⟩ := Option.isSome_iff_exists.mp hs
    unfold resumeSessionM
    rw [hr]

theorem claim_C8_witness :
    resumeSessionM
      { sessions := [("abc123", { status := .idle, events := ["session.start"] })],
        nextId := 1 } "abc123" = .ok { sessionId := "abc123" } ∧
    resumeSessionM { sessions := [], nextId := 0 } "non-existent-session-id" =
      .error (.sessionNotFound "non-existent-session-id") :=
  ⟨(claim_C8_resume_identity
      { sessions := [("abc123", { status := .idle, events := ["session.start"] })],
        nextId := 1 } "abc123").1 (by decide),
   (claim_C8_resume_identity { sessions := [], nextId := 0 }
      "non-existent-session-id").2.1 rfl⟩

/-- Claim C9: abort cancels the in-flight turn without destroying the
session: the registry still holds the session afterwards with status
idle, an immediate new send on the same session succeeds, and the turn
then completes normally, leaving the log ending in user.message,
assistant.message, session.idle. -/
theorem claim_C9_abort_then_send (st : EngineState) (id : String)
    (r : SessionRec) (hs : lookupSession st id = some r) :
    statusOf (abortSession st id) id = some .idle ∧
    ∃ st2, sendMsg (abortSession st id) id = .ok st2 ∧
      statusOf (completeTurn st2 id) id = some .idle ∧
      eventsOf (completeTurn st2 id) id =
        some (r.events ++ ["user.message", "assistant.message", "session.idle"]) := by
  have h1 : lookupSession (abortSession st id) id = some { r with status := .idle } := by
    unfold abortSession
    rw [lookupSession_update, hs]
    rfl
  have h2 : lookupSession (afterSend (abortSession st id) id) id =
      some { status := .processing, events := r.events ++ ["user.message"] } := by
    unfold afterSend
    rw [lookupSession_update, h1]
    rfl
  have h3 : lookupSession (completeTurn (afterSend (abortSession st id) id) id) id =
      some { status := .idle,
             events := (r.events ++ ["user.message"]) ++
               ["assistant.message", "session.idle"] } := by
    unfold completeTurn
    rw [lookupSession_update, h2]
    rfl
  refine ⟨?_, afterSend (abortSession st id) id, ?_, ?_, ?_⟩
  · unfold statusOf
    rw [h1]
    rfl
  · unfold sendMsg
    rw [h1]
  · unfold statusOf
    rw [h3]
    rfl
  · unfold eventsOf
    rw [h3]
    simp

theorem claim_C9_witness :
    statusOf
      (abortSession
        { sessions := [("s1", { status := .processing, events := ["session.start"] })],
          nextId := 1 } "s1") "s1" = some .idle ∧
    ∃ st2, sendMsg
        (abortSession
          { sessions := [("s1", { status := .processing, events := ["session.start"] })],
            nextId := 1 } "s1") "s1" = .ok st2 ∧
      statusOf (completeTurn st2 "s1") "s1" = some .idle ∧
      eventsOf (completeTurn st2 "s1") "s1" =
        some (["session.start"] ++
          ["user.message", "assistant.message", "session.idle"]) :=
  claim_C9_abort_then_send
    { sessions := [("s1", { status := .processing, events := ["session.start"] })],
      nextId := 1 } "s1" { status := .processing, events := ["session.start"] }
    (by decide)

/-! ## Authentication material flow (spec 4.3, 6; go/types.go
GithubToken, UseLoggedInUser; test TestClient_AuthOptions) -/

/-- A locally spawned engine process, reduced to the environment the
client hands it. -/
structure SpawnedProcess where
  env : List (String × String)
deriving DecidableEq, Repr

/-- Modelled from the spec: the environment entries carrying
authentication material for a locally spawned engine process.  Spec
4.3 and go/types.go say the token and the stored-credential flag are
passed via environment variables; the exact variable names are not
recorded in the snapshot, so placeholder names stand for them. -/
def authEnvEntries (opts : ClientOptionsM) : List (String × String) :=
  (if opts.githubToken ≠ "" then [("GITHUB_TOKEN", opts.githubToken)] else []) ++
  (match opts.useLoggedInUser with
   | some b => [("COPILOT_USE_LOGGED_IN_USER", if b then "true" else "false")]
   | none => [])

/-- Modelled from the spec: process start, whose implementation file is
not in the source snapshot.  Spec 4.3: a client in network mode does
not own the process and spawns nothing; a local-mode client spawns the
engine with the authentication entries injected into its
environment. -/
def startProcess (c : Client) : Option SpawnedProcess :=
  if c.isExternalServer then none
  else some { env := [("COPILOT_LOG_LEVEL", "info")] ++ authEnvEntries c.options }

/-- Wire method surface of spec 6. -/
def wireMethodNames : List String :=
  ["status.get", "auth.getStatus", "models.list", "session.create",
   "session.resume", "session.send", "session.abort", "session.getMessages",
   "session.list", "session.delete", "ping", "tool.invoke", "permission.request"]

/-- Session configuration payload as it crosses the wire, reduced to
its string-valued fields (spec 6 passes the configuration through
verbatim). -/
structure SessionConfigW where
  sessionId : String := ""
  model : String := ""
  streaming : Bool := false
deriving DecidableEq, Repr

/-- Caller-supplied strings of a session configuration. -/
def cfgStrings (cfg : SessionConfigW) : List String :=
  [cfg.sessionId, cfg.model]

/-- Modelled from the spec: every string the client places on the wire
for the session lifecycle is a method name of spec 6 or part of the
caller-supplied configuration passed through verbatim; requests are
built from the configuration alone, with no client-options input. -/
def wireStrings (cfg : SessionConfigW) : List String :=
  wireMethodNames ++ cfgStrings cfg

/-- Claim C7: authentication material is injected only into a locally
spawned engine process environment and never into the wire protocol;
a client constructed in network mode never performs this injection: it
spawns no process, and construction has already excluded any
authentication material from its options. -/
theorem claim_C7_auth_env_only (opts : ClientOptionsM) (c : Client)
    (hok : NewClient opts = .ok c) :
    (c.isExternalServer = true →
      startProcess c = none ∧ c.options.githubToken = "" ∧
      c.options.useLoggedInUser = none) ∧
    (c.isExternalServer = false →
      ∃ p, startProcess c = some p ∧
        ∀ e ∈ authEnvEntries c.options, e ∈ p.env) ∧
    (∀ (cfg : SessionConfigW) (tok : String),
      tok ∉ wireMethodNames → tok ∉ cfgStrings cfg → tok ∉ wireStrings cfg) := by
  refine ⟨?_, ?_, ?_⟩
  · intro hext
    by_cases hurl : opts.cliUrl = ""
    · unfold NewClient at hok
      rw [if_pos hurl] at hok
      cases hok
      cases hext
    · by_cases hconf : opts.cliPath ≠ "" ∨ opts.useStdio = true
      · unfold NewClient at hok
        rw [if_neg hurl, if_pos hconf] at hok
        cases hok
      · by_cases hauth : opts.githubToken ≠ "" ∨ opts.useLoggedInUser ≠ none
        · unfold NewClient at hok
          rw [if_neg hurl, if_neg hconf, if_pos hauth] at hok
          cases hok
        · have hauth2 := hauth
          push_neg at hauth2
          unfold NewClient at hok
          rw [if_neg hurl, if_neg hconf, if_neg hauth] at hok
          cases hp : parseCliUrl opts.cliUrl with
          | error e =>
            rw [hp] at hok
            cases hok
          | ok pr =>
            obtain ⟨hh, pp⟩ := pr
            rw [hp] at hok
            cases hok
            exact ⟨rfl, hauth2.1, hauth2.2⟩
  · intro hloc
    unfold startProcess
    rw [if_neg (by rw [hloc]; exact Bool.false_ne_true)]
    exact ⟨_, rfl, fun e he => List.mem_append_right _ he⟩
  · intro cfg tok hm hc hmem
    rcases List.mem_append.mp hmem with h | h
    · exact hm h
    · exact hc h

theorem claim_C7_witness :
    startProcess
      { options := { cliUrl := "localhost:8080", useStdio := false },
        actualHost := "localhost", actualPort := 8080,
        isExternalServer := true } = none ∧
    "gho_test_token" ∉ wireStrings { model := "fake-test-model" } :=
  have h := claim_C7_auth_env_only { cliUrl := "localhost:8080" }
    { options := { cliUrl := "localhost:8080", useStdio := false },
      actualHost := "localhost", actualPort := 8080, isExternalServer := true }
    (by rfl)
  ⟨(h.1 rfl).1,
   h.2.2 { model := "fake-test-model" } "gho_test_token" (by decide) (by decide)⟩

/-! ## Concurrent session creation racing process start (spec 4.4
known race, 9; skipped test should handle multiple concurrent
sessions) -/

/-- Connection state of the supervisor (go/types.go ConnectionState,
without the error state, which the race does not touch). -/
inductive ConnStateM
  | disconnected
  | connecting
  | connected
deriving DecidableEq, Repr

/-- Shared world visible to concurrent createSession callers: the
supervisor connection state and the number of engine processes spawned
so far. -/
structure SpawnWorld where
  conn : ConnStateM := .disconnected
  spawnCount : Nat := 0
deriving DecidableEq, Repr

/-- Program counter of one createSession caller running the
check-then-spawn sequence of ensureStarted. -/
inductive CallerPC
  | start
  | observed (s : ConnStateM)
  | done
deriving DecidableEq, Repr

/-- Modelled from the spec: one atomic step of the ensureStarted logic
as currently shipped, which the skipped concurrency test documents as
racy: the caller first observes the connection state, and in a later,
separate step spawns when the observed state was disconnected.
Between the two steps another caller may observe the same stale
state. -/
def stepUnguarded : SpawnWorld → CallerPC → SpawnWorld × CallerPC
  | w, .start => (w, .observed w.conn)
  | w, .observed s =>
    if s = .disconnected then
      ({ conn := .connected, spawnCount := w.spawnCount + 1 }, .done)
    else (w, .done)
  | w, .done => (w, .done)

/-- Modelled from the spec: the serialized variant required by spec 4.3
and 9, where observing the state and reserving the start are one
atomic step, so a second caller observes connecting and waits. -/
def stepGuarded : SpawnWorld → CallerPC → SpawnWorld × CallerPC
  | w, .start =>
    if w.conn = .disconnected then
      ({ w with conn := .connecting }, .observed .disconnected)
    else (w, .observed w.conn)
  | w, .observed s =>
    if s = .disconnected then
      ({ conn := .connected, spawnCount := w.spawnCount + 1 }, .done)
    else (w, .done)
  | w, .done => (w, .done)

/-- Run two callers against the shared world under an explicit
interleaving: true schedules a step of the first caller, false a step
of the second. -/
def runSchedule (step : SpawnWorld → CallerPC → SpawnWorld × CallerPC) :
    SpawnWorld → CallerPC → CallerPC → List Bool → SpawnWorld × CallerPC × CallerPC
  | w, p1, p2, [] => (w, p1, p2)
  | w, p1, p2, true :: rest =>
    let s := step w p1
    runSchedule step s.1 s.2 p2 rest
  | w, p1, p2, false :: rest =>
    let s := step w p2
    runSchedule step s.1 p1 s.2 rest

/-- Claim C6, failing on the code: under the interleaving the skipped
concurrency test documents, two concurrent createSession callers
running the shipped check-then-spawn sequence both observe the
disconnected state and both spawn, so two engine processes start where
the claim requires exactly one.  Both callers finish, so the double
spawn is not an artifact of a truncated schedule. -/
theorem claim_C6_unguarded_double_spawn :
    (runSchedule stepUnguarded { conn := .disconnected, spawnCount := 0 }
      .start .start [true, false, true, false]).1.spawnCount = 2 ∧
    (runSchedule stepUnguarded { conn := .disconnected, spawnCount := 0 }
      .start .start [true, false, true, false]).2 = (.done, .done) := by
  constructor <;> rfl

/-- The serialized variant mandated by spec 4.3 and 9 spawns once on
the very same interleaving. -/
theorem guarded_single_spawn_on_race_schedule :
    (runSchedule stepGuarded { conn := .disconnected, spawnCount := 0 }
      .start .start [true, false, true, false]).1.spawnCount = 1 := by
  rfl

end CopilotSDK
